import Mathlib

/-!
# Verification of the flow run-state engine specification

Shallow embedding of the workflow orchestration engine described in
`spec.md`, pinned at concrete points by the behaviour asserted in
`src/tests/test_flows.py`.  The engine sources themselves
(`prefect/flows.py`, `prefect/engine.py`, `prefect/states.py`) are not
part of the source tree here, so the definitions below are modelled from
the specification's component design (§3, §4) and, where the tests fix
observable behaviour, from `tests/test_flows.py`.
-/

namespace Prefect

/-- Modelled from the spec: §3 "State" — `type` is one of the nine
lifecycle positions.  The engine sources (`prefect/states.py`) are not
under `src/`. -/
inductive StateType where
  | SCHEDULED
  | PENDING
  | RUNNING
  | COMPLETED
  | FAILED
  | CANCELLED
  | CANCELLING
  | CRASHED
  | PAUSED
deriving DecidableEq, Repr

/-- Modelled from the spec: §7 error taxonomy — the exception classes the
engine distinguishes (`ParameterTypeError`, `CancelledRun`, user
`ValueError`/`TimeoutError`, and a generic class), each carrying the
message users observe.  The exception classes of `prefect/exceptions.py`
are not under `src/`. -/
inductive Exc where
  | ValueError (msg : String)
  | TimeoutError (msg : String)
  | ParameterTypeError (msg : String)
  | CancelledRun (msg : String)
  | GenericError (msg : String)
deriving DecidableEq, Repr

/-- Modelled from the spec: §3 — parameter and result values "may be
arbitrary — not required to be serializable".  `vObj` stands for an
arbitrary non-serializable object, distinguished only by identity. -/
inductive Value where
  | vInt (n : Int)
  | vStr (s : String)
  | vBool (b : Bool)
  | vNone
  | vObj (id : Nat)
deriving DecidableEq, Repr

/-- A child state's data payload: either a raw value or a captured
exception (spec §3 `State.data`). -/
inductive ChildData where
  | value (v : Value)
  | exc (e : Exc)
deriving DecidableEq, Repr

/-- Modelled from the spec: a child run's state as seen inside a returned
collection of States (§4.3 step 4): its lifecycle `type`, `message`, and
a data payload that is either a raw value or a captured exception. -/
structure ChildState where
  type : StateType
  message : String
  data : ChildData
deriving DecidableEq, Repr

/-- Modelled from the spec: §3 `State.data` — "either the raw return
value (in-memory)" or, for a flow returning a collection of States, that
collection, or a captured exception whose resolution re-raises it. -/
inductive ResultData where
  | value (v : Value)
  | states (ss : List ChildState)
  | exc (e : Exc)
deriving DecidableEq, Repr

/-- Modelled from the spec: §3 "State" — a tagged value with `type`,
human-label `name` (which "may diverge from `type`, e.g. a Failed state
with name `TimedOut`"), free-text `message` and a `data` payload. -/
structure State where
  type : StateType
  name : String
  message : String
  data : ResultData
deriving DecidableEq, Repr

/-- Modelled from the spec: §3 / §7 — "resolving it may raise the
originally-raised exception".  Resolving a state's data either yields the
raw value or re-raises the captured exception with its original type and
message. -/
def State.resolve (st : State) : Except Exc ResultData :=
  match st.data with
  | .exc e => .error e
  | d => .ok d

/-- A completed state wrapping a plain return value (spec §4.3 step 4:
"normal return of a plain value → Completed, data = value"). -/
def completedState (v : Value) : State :=
  { type := .COMPLETED, name := "Completed", message := "", data := .value v }

/-- A failed state wrapping a raised exception (spec §4.3 step 4: "any
other raised exception → Failed, data wraps the exception so that
resolving the state's data re-raises it"). -/
def failedState (msg : String) (e : Exc) : State :=
  { type := .FAILED, name := "Failed", message := msg, data := .exc e }

/-- The message carried by an exception, used as the failed state's
message. -/
def Exc.message : Exc → String
  | .ValueError m => m
  | .TimeoutError m => m
  | .ParameterTypeError m => m
  | .CancelledRun m => m
  | .GenericError m => m

/-- Number of states in the collection with the given lifecycle type
(spec §4.3 step 4's fractions are computed from these counts). -/
def countType (t : StateType) (ss : List ChildState) : Nat :=
  (ss.filter (fun s => s.type == t)).length

/-- Modelled from the spec: §4.3 step 4, outcome classification for a
"normal return of a State or a structured collection of States": if the
collection is all-Completed, Completed with the collection as data;
otherwise Cancelled when any state is cancelled, else Failed, "with a
message reporting the fraction failed/cancelled (e.g. \"2/3 states
failed.\")".  The classifier of `prefect/states.py`
(`return_value_to_state` over a `StateGroup`) is not under `src/`; the
concrete messages are pinned by
`tests/test_flows.py::test_flow_state_reflects_returned_multiple_task_run_states`
and `::test_flow_state_with_cancelled_tasks_has_cancelled_state`. -/
def stateFromStateCollection (ss : List ChildState) : State :=
  let n := ss.length
  let completed := countType .COMPLETED ss
  let cancelled := countType .CANCELLED ss
  let failed := countType .FAILED ss + countType .CRASHED ss
  if completed = n then
    { type := .COMPLETED, name := "Completed",
      message := "All states completed.", data := .states ss }
  else if 0 < cancelled then
    { type := .CANCELLED, name := "Cancelled",
      message := toString cancelled ++ "/" ++ toString n ++ " states cancelled.",
      data := .states ss }
  else
    { type := .FAILED, name := "Failed",
      message := toString failed ++ "/" ++ toString n ++ " states failed.",
      data := .states ss }

/-! ## Retry loop (spec §4.3 step 5) -/

/-- Modelled from the spec: §4.3 "run" steps 2–5 — the retry loop of the
engine, which is not under `src/`.  `body` is the user code, a function
of the zero-based attempt number (each attempt re-enters at run-state
creation); `attempt` is the attempt about to execute and `retriesLeft`
the remaining retry budget.  A normal return classifies as Completed; a
raised exception classifies as Failed, and "if retries remain and the
state is Failed … increment the attempt counter and go to step 2".
Returns the total number of body executions and the terminal state. -/
def runRetryLoop (body : Nat → Except Exc Value) :
    Nat → Nat → Nat × State
  | attempt, 0 =>
      (attempt + 1,
        match body attempt with
        | .ok v => completedState v
        | .error e => failedState (Exc.message e) e)
  | attempt, retriesLeft + 1 =>
      match body attempt with
      | .ok v => (attempt + 1, completedState v)
      | .error _ => runRetryLoop body (attempt + 1) retriesLeft

/-- Modelled from the spec: calling a flow whose definition declares
`retries`: the first attempt is attempt 0 with the whole retry budget
available. -/
def callFlowWithRetries (retries : Nat) (body : Nat → Except Exc Value) :
    Nat × State :=
  runRetryLoop body 0 retries

/-! ## Task-run reuse across flow retries (spec §4.3 step 5, pinned by
`tests/test_flows.py::TestFlowRetries`) -/

/-- Modelled from the spec: §3 "Run" — a task run record with its current
state, its result payload, and the number of times its user code has
actually executed. -/
structure TaskRun where
  state : StateType
  result : Option Value
  runCount : Nat
deriving DecidableEq, Repr

/-- Modelled from the spec: executing a task's user code on a given flow
attempt, producing a fresh state on the existing task run record
(`prevCount` executions so far). -/
def execTask (behavior : Nat → Except Exc Value) (attempt prevCount : Nat) :
    TaskRun :=
  match behavior attempt with
  | .ok v => { state := .COMPLETED, result := some v, runCount := prevCount + 1 }
  | .error _ => { state := .FAILED, result := none, runCount := prevCount + 1 }

/-- Modelled from the spec's engine with the reuse policy pinned by the
repository's tests
(`tests/test_flows.py::TestFlowRetries::test_flow_retry_with_error_in_flow_and_successful_task`,
which asserts `task_run_count == 1` after a flow retry, and
`::test_flow_retry_with_no_error_in_flow_and_one_failed_task`, which
asserts `task_run_count == 2`, "Task should be reset and run again"):
when a retried flow body calls a task whose task run from the prior
attempt is Completed, the engine returns the existing completed task run
without executing the task again; a task run in any other (failed) state
is reset and its user code executed again.  The engine sources are not
under `src/`. -/
def callTask (behavior : Nat → Except Exc Value) (prev : Option TaskRun)
    (attempt : Nat) : TaskRun :=
  match prev with
  | some tr =>
      if tr.state = .COMPLETED then tr
      else execTask behavior attempt tr.runCount
  | none => execTask behavior attempt 0

/-- Modelled from the spec: a flow body that calls one task and then
continues (`rest` may inspect the task run and either return a value or
raise, as the bodies in `TestFlowRetries` do).  A failed task call
propagates its failure out of the flow body. -/
def flowBodyWithTask (taskB : Nat → Except Exc Value)
    (rest : Nat → TaskRun → Except Exc Value) (prev : Option TaskRun)
    (attempt : Nat) : TaskRun × Except Exc Value :=
  let tr := callTask taskB prev attempt
  if tr.state = .FAILED then
    (tr, .error (.ValueError "task failed"))
  else
    (tr, rest attempt tr)

/-- Modelled from the spec: the retry loop of a flow whose body calls one
task, threading the task run record of the child across attempts (the
flow run is re-entered on retry; the child task run record persists with
the orchestration authority).  Returns the number of flow body
executions, the task run record, and the terminal state. -/
def runFlowWithTask (taskB : Nat → Except Exc Value)
    (rest : Nat → TaskRun → Except Exc Value) :
    Option TaskRun → Nat → Nat → Nat × TaskRun × State
  | prev, attempt, 0 =>
      let r := flowBodyWithTask taskB rest prev attempt
      (attempt + 1, r.1,
        match r.2 with
        | .ok v => completedState v
        | .error e => failedState (Exc.message e) e)
  | prev, attempt, retriesLeft + 1 =>
      let r := flowBodyWithTask taskB rest prev attempt
      match r.2 with
      | .ok v => (attempt + 1, r.1, completedState v)
      | .error _ => runFlowWithTask taskB rest (some r.1) (attempt + 1) retriesLeft

/-- Calling a flow-with-one-task with the declared retry budget: no task
run exists yet, first attempt is attempt 0. -/
def callFlowWithTask (retries : Nat) (taskB : Nat → Except Exc Value)
    (rest : Nat → TaskRun → Except Exc Value) : Nat × TaskRun × State :=
  runFlowWithTask taskB rest none 0 retries

/-- The scenario of
`tests/test_flows.py::TestFlowRetries::test_flow_retry_with_error_in_flow_and_successful_task`:
`retries=1`, the task always succeeds with "hello", the flow body raises
after the task call on the first attempt and returns the task's result on
the second. -/
def retryScenarioSuccessfulTask : Nat × TaskRun × State :=
  callFlowWithTask 1 (fun _ => .ok (.vStr "hello"))
    (fun attempt tr =>
      if attempt = 0 then .error (.ValueError "boom")
      else .ok (tr.result.getD .vNone))

/-- The scenario of
`tests/test_flows.py::TestFlowRetries::test_flow_retry_with_no_error_in_flow_and_one_failed_task`:
`retries=1`, the task fails on the first flow attempt and succeeds with
"hello" on the retry, the flow body just returns the task's result. -/
def retryScenarioFailedTask : Nat × TaskRun × State :=
  callFlowWithTask 1
    (fun attempt => if attempt = 0 then .error (.ValueError "boom")
                    else .ok (.vStr "hello"))
    (fun _ tr => .ok (tr.result.getD .vNone))

/-! ## Timeout enforcement (spec §4.3 step 4, §4.4) -/

/-- Modelled from the spec: what a flow body does when it runs to its
natural end — return a plain value or raise an exception. -/
inductive BodyOutcome where
  | ret (v : Value)
  | raise (e : Exc)
deriving DecidableEq, Repr

/-- Modelled from the spec: a flow body abstracted by the wall-clock
`duration` (in seconds) it needs to finish and the outcome it produces if
allowed to finish. -/
structure TimedBody where
  duration : Nat
  outcome : BodyOutcome
deriving DecidableEq, Repr

/-- Modelled from the spec: §4.3 step 4 / §4.4 — the Concurrency Adapter
enforcing a declared `timeout_seconds` around a flow body (the adapter
sources are not under `src/`).  If the body needs longer than the
deadline, the engine reports "Failed with name \"TimedOut\", message
including the configured timeout value" (message text pinned by
`tests/test_flows.py::TestFlowTimeouts::test_flows_fail_with_timeout`);
a body that finishes is classified by its own outcome: a plain return
becomes Completed, a raised exception becomes Failed with the exception's
own message and the exception as data — in particular a `TimeoutError`
raised by user code before the deadline is an ordinary failure
(`::test_user_timeout_is_not_hidden`). -/
def runWithTimeout (timeoutSeconds : Nat) (body : TimedBody) : State :=
  if timeoutSeconds < body.duration then
    { type := .FAILED, name := "TimedOut",
      message := "Flow run exceeded timeout of " ++ toString timeoutSeconds
        ++ " seconds",
      data := .exc (.TimeoutError
        ("Flow run exceeded timeout of " ++ toString timeoutSeconds
          ++ " seconds")) }
  else
    match body.outcome with
    | .ret v => completedState v
    | .raise e => failedState (Exc.message e) e

/-! ## Parameter Binder (spec §4.1) -/

/-- Modelled from the spec: §4.1 — the declared type annotation of a
parameter.  `AAny` is an unannotated parameter (no coercing annotation). -/
inductive Ann where
  | AInt
  | AStr
  | AAny
deriving DecidableEq, Repr

/-- Reads a non-empty list of decimal digit characters as a number;
`none` when any character is not a digit. -/
def digitsToNat? : List Char → Nat → Option Nat
  | [], acc => some acc
  | c :: cs, acc =>
      if 48 ≤ c.toNat ∧ c.toNat ≤ 57 then
        digitsToNat? cs (acc * 10 + (c.toNat - 48))
      else none

/-- Parses a string as a decimal natural number, `none` when the string
is empty or holds a non-digit character. -/
def parseNat? (s : String) : Option Nat :=
  match s.data with
  | [] => none
  | l => digitsToNat? l 0

/-- Modelled from the spec: §4.1 — checking/coercing one call-time value
against a declared annotation: an `int` annotation accepts integers and
coerces numeric strings (as in
`tests/test_flows.py::TestFlowCall::test_call_coerces_parameter_types`,
where `x="1"` coerces); a value that cannot be coerced yields `none`.
An unannotated parameter passes any value through unchanged. -/
def coerce : Ann → Value → Option Value
  | .AAny, v => some v
  | .AInt, .vInt n => some (.vInt n)
  | .AInt, .vStr s =>
      match parseNat? s with
      | some n => some (.vInt n)
      | none => none
  | .AInt, _ => none
  | .AStr, .vStr s => some (.vStr s)
  | .AStr, _ => none

/-- A declared parameter together with the value supplied at the call
site: parameter name, declared annotation, call-time argument. -/
structure ParamBinding where
  name : String
  ann : Ann
  arg : Value
deriving DecidableEq, Repr

/-- Modelled from the spec: §4.1 Parameter Binder — with validation
enabled, each value is checked/coerced against its annotation and "a
value that cannot be coerced raises a ParameterTypeError identifying the
offending parameter(s) without executing the callable"; with validation
disabled, "values pass through unchanged (including non-serializable,
arbitrary objects)".  The binder sources
(`prefect/flows.py::Flow.validate_parameters`) are not under `src/`. -/
def bindParameters (validate : Bool) (params : List ParamBinding) :
    Except Exc (List (String × Value)) :=
  if validate then
    match params.filter (fun p => (coerce p.ann p.arg).isNone) with
    | [] => .ok (params.map (fun p => (p.name, (coerce p.ann p.arg).getD p.arg)))
    | bad => .error (.ParameterTypeError
        ("Flow run received invalid parameters: "
          ++ String.intercalate ", " (bad.map (fun p => p.name))))
  else
    .ok (params.map (fun p => (p.name, p.arg)))

/-- Modelled from the spec: §4.3 step 1 — "Validate parameters (4.1); on
failure, create the run directly in a Failed state carrying the
validation error and return without executing user code."  Returns the
sequence of flow body invocations (each with the argument mapping the
body was given) together with the terminal state; on a validation failure
the body is never invoked, and on successful binding it is invoked
exactly once on the bound values. -/
def runFlowWithParams (validate : Bool) (params : List ParamBinding)
    (body : List (String × Value) → Except Exc Value) :
    List (List (String × Value)) × State :=
  match bindParameters validate params with
  | .error e =>
      ([], { type := .FAILED, name := "Failed",
             message := "Validation of flow parameters failed",
             data := .exc e })
  | .ok bound =>
      ([bound],
        match body bound with
        | .ok v => completedState v
        | .error e => failedState (Exc.message e) e)

/-! ## Lifecycle hooks (spec §4.3 step 6) -/

/-- Modelled from the spec: §3 — a lifecycle hook callable, identified by
a numeric id (in place of a Python function object), that either returns
normally or raises when invoked. -/
structure Hook where
  id : Nat
  raises : Bool
deriving DecidableEq, Repr

/-- Invoking one hook: it either completes, recording its observable
effect (its id, standing for the mock call in
`tests/test_flows.py::TestFlowHooksOnCompletion`), or raises. -/
def invokeHook (h : Hook) : Except Exc Nat :=
  if h.raises then .error (.GenericError "hook failed") else .ok h.id

/-- Modelled from the spec: §4.3 step 6 — "Run lifecycle hooks
appropriate to the final state type, in declaration order; an exception
raised by one hook is caught, logged, and does not prevent subsequent
hooks from running or change the final state."  Returns the list of hook
ids invoked (in order), the list of effects of hooks that completed
without raising, and the run's state after hook dispatch.  Hook dispatch
(`prefect/engine.py::_run_flow_hooks`) is not under `src/`. -/
def dispatchHooks : List Hook → State → List Nat × List Nat × State
  | [], st => ([], [], st)
  | h :: hs, st =>
      match invokeHook h with
      | .ok eff =>
          let r := dispatchHooks hs st
          (h.id :: r.1, eff :: r.2.1, r.2.2)
      | .error _ =>
          let r := dispatchHooks hs st
          (h.id :: r.1, r.2.1, r.2.2)

/-! ## Hook configuration validation at definition time (spec §3
invariant, §7; messages pinned by
`tests/test_flows.py::TestFlowHooksOnCompletion`) -/

/-- An element of a hook list: an invokable hook, or a non-callable value
with its reported type name. -/
inductive HookElem where
  | callable (h : Hook)
  | nonCallable (typeName : String)
deriving DecidableEq, Repr

/-- Modelled from the spec: the value a user may pass for a hook keyword
such as `on_completion`: nothing, a non-iterable value (with the type
name Python would report), or an iterable of elements. -/
inductive HookArg where
  | noValue
  | nonIterable (typeName : String)
  | iterable (elems : List HookElem)
deriving DecidableEq, Repr

/-- Modelled from the spec: §7 — configuration errors "raised at
definition time, fail fast". -/
inductive ConfigError where
  | typeError (msg : String)
  | valueError (msg : String)
deriving DecidableEq, Repr

/-- Whether a hook-list element is callable. -/
def HookElem.isCallable : HookElem → Bool
  | .callable _ => true
  | .nonCallable _ => false

/-- The reported type name of a hook-list element. -/
def HookElem.typeNameOf : HookElem → String
  | .callable _ => "function"
  | .nonCallable t => t

/-- Modelled from the spec: §3 "Invariant: hook lists, when provided,
must be non-empty iterables of invokable values — validated eagerly at
definition time, not at run time."  Error messages pinned by
`tests/test_flows.py::TestFlowHooksOnCompletion::test_noniterable_hook_raises`,
`::test_empty_hook_list_raises` and `::test_noncallable_hook_raises`.
The validator (`prefect/flows.py::Flow.__init__`) is not under `src/`. -/
def validateHooks (argName : String) : HookArg → Except ConfigError (List Hook)
  | .noValue => .ok []
  | .nonIterable typeName =>
      .error (.typeError
        ("Expected iterable for '" ++ argName ++ "'; got " ++ typeName
          ++ " instead. Please provide a list of hooks to '" ++ argName
          ++ "':\n\n@flow(" ++ argName
          ++ "=[hook1, hook2])\ndef my_flow():\n\tpass"))
  | .iterable [] =>
      .error (.valueError ("Empty list passed for '" ++ argName ++ "'"))
  | .iterable elems =>
      match elems.find? (fun e => !e.isCallable) with
      | some bad =>
          .error (.typeError
            ("Expected callables in '" ++ argName ++ "'; got "
              ++ bad.typeNameOf
              ++ " instead. Please provide a list of hooks to '" ++ argName
              ++ "':\n\n@flow(" ++ argName
              ++ "=[hook1, hook2])\ndef my_flow():\n\tpass"))
      | none =>
          .ok (elems.filterMap (fun e =>
            match e with
            | .callable h => some h
            | .nonCallable _ => none))

/-! ## Flow definition and `with_options` (spec §8; fields pinned by
`tests/test_flows.py::TestFlowWithOptions`) -/


/-- Modelled from the spec: §3 "Retry/Hook configuration" and §9 — the
"explicit wrapper/builder type that holds the function plus a
configuration struct".  Observable configuration fields as asserted by
`tests/test_flows.py::TestFlowWithOptions::test_with_options_uses_existing_settings_when_no_override`;
the task runner and result storage/serializer collaborators are
represented by identifying tags.  `prefect/flows.py::Flow` is not under
`src/`. -/
structure FlowDef where
  name : String
  description : Option String
  task_runner : String
  timeout_seconds : Option Nat
  should_validate_parameters : Bool
  retries : Nat
  retry_delay_seconds : Nat
  persist_result : Option Bool
  result_serializer : Option String
  result_storage : Option String
  cache_result_in_memory : Bool
  log_prints : Option Bool
  on_completion : List Hook
  on_failure : List Hook
deriving DecidableEq, Repr

/-- Modelled from the spec: the overrides accepted by `with_options` —
each field may be left unset, in which case the existing setting is
kept. -/
structure FlowOptions where
  name : Option String := none
  description : Option (Option String) := none
  task_runner : Option String := none
  timeout_seconds : Option (Option Nat) := none
  should_validate_parameters : Option Bool := none
  retries : Option Nat := none
  retry_delay_seconds : Option Nat := none
  persist_result : Option (Option Bool) := none
  result_serializer : Option (Option String) := none
  result_storage : Option (Option String) := none
  cache_result_in_memory : Option Bool := none
  log_prints : Option (Option Bool) := none
  on_completion : Option (List Hook) := none
  on_failure : Option (List Hook) := none

/-- The empty override set: `with_options()` called with no arguments. -/
def FlowOptions.empty : FlowOptions := {}

/-- Modelled from the spec: §8 — "calling `with_options()` with no
overrides yields a definition equal in all observable fields to the
original, except identity": each override, when set, replaces the
corresponding field, and each unset override keeps the existing setting
(`prefect/flows.py::Flow.with_options` is not under `src/`; behaviour
pinned by `tests/test_flows.py::TestFlowWithOptions`). -/
def FlowDef.with_options (f : FlowDef) (o : FlowOptions) : FlowDef :=
  { name := o.name.getD f.name
    description := o.description.getD f.description
    task_runner := o.task_runner.getD f.task_runner
    timeout_seconds := o.timeout_seconds.getD f.timeout_seconds
    should_validate_parameters :=
      o.should_validate_parameters.getD f.should_validate_parameters
    retries := o.retries.getD f.retries
    retry_delay_seconds := o.retry_delay_seconds.getD f.retry_delay_seconds
    persist_result := o.persist_result.getD f.persist_result
    result_serializer := o.result_serializer.getD f.result_serializer
    result_storage := o.result_storage.getD f.result_storage
    cache_result_in_memory :=
      o.cache_result_in_memory.getD f.cache_result_in_memory
    log_prints := o.log_prints.getD f.log_prints
    on_completion := o.on_completion.getD f.on_completion
    on_failure := o.on_failure.getD f.on_failure }

/-- Modelled from the spec: §9 — "construction validates configuration
eagerly": building a flow definition from user configuration validates
the hook arguments before the definition object exists; a validation
error means no `FlowDef` is ever created, so no run of it can occur
(`prefect/flows.py::Flow.__init__` is not under `src/`).  Unspecified
settings take the engine defaults. -/
def mkFlowDef (name : String) (onCompletionArg onFailureArg : HookArg) :
    Except ConfigError FlowDef :=
  match validateHooks "on_completion" onCompletionArg with
  | .error e => .error e
  | .ok oc =>
      match validateHooks "on_failure" onFailureArg with
      | .error e => .error e
      | .ok onf =>
          .ok { name := name, description := none,
                task_runner := "ConcurrentTaskRunner",
                timeout_seconds := none, should_validate_parameters := true,
                retries := 0, retry_delay_seconds := 0, persist_result := none,
                result_serializer := none, result_storage := none,
                cache_result_in_memory := true, log_prints := none,
                on_completion := oc, on_failure := onf }

/-! ## Helper lemmas -/

/-- Every state of the collection has type `t` exactly when the count of
type-`t` states is the whole collection's length. -/
lemma countType_eq_length_iff (t : StateType) (ss : List ChildState) :
    countType t ss = ss.length ↔ ∀ s ∈ ss, s.type = t := by
  unfold countType
  constructor
  · intro h s hs
    have hself : ss.filter (fun s => s.type == t) = ss :=
      (List.filter_sublist ss).eq_of_length h
    have := (List.filter_eq_self.mp hself) s hs
    exact beq_iff_eq.mp this
  · intro h
    have : ss.filter (fun s => s.type == t) = ss :=
      List.filter_eq_self.mpr (fun s hs => beq_iff_eq.mpr (h s hs))
    rw [this]

/-- Some state of the collection has type `t` exactly when the count of
type-`t` states is positive. -/
lemma countType_pos_iff (t : StateType) (ss : List ChildState) :
    0 < countType t ss ↔ ∃ s ∈ ss, s.type = t := by
  unfold countType
  rw [List.length_pos]
  constructor
  · intro h
    by_contra hno
    push_neg at hno
    exact h (List.filter_eq_nil_iff.mpr
      (fun s hs => by simpa [beq_iff_eq] using hno s hs))
  · rintro ⟨s, hs, ht⟩ hnil
    have := List.filter_eq_nil_iff.mp hnil s hs
    simp [ht, beq_iff_eq] at this

/-- In a collection whose states are each Completed or Failed, the
failed-or-crashed count equals the number of non-completed states. -/
lemma failed_count_eq_noncompleted (ss : List ChildState)
    (h : ∀ s ∈ ss, s.type = .COMPLETED ∨ s.type = .FAILED) :
    countType .FAILED ss + countType .CRASHED ss =
      (ss.filter (fun s => !(s.type == .COMPLETED))).length := by
  induction ss with
  | nil => rfl
  | cons a l ih =>
      have ha := h a (List.mem_cons_self a l)
      have hl := fun s hs => h s (List.mem_cons_of_mem a hs)
      have hrest := ih hl
      unfold countType at hrest ⊢
      rcases ha with hC | hF
      · simp [List.filter_cons, hC]
        exact hrest
      · simp [List.filter_cons, hF]
        omega

/-! ## Claim theorems -/

/-- C1: When a flow's body returns a structured collection of States, the
engine classifies the flow's terminal state from the collection: if every
state is Completed the flow is Completed with the collection as data;
otherwise the flow is Cancelled if any state is Cancelled, with a message
reporting the fraction of cancelled states, and Failed otherwise, with a
message reporting the fraction of non-completed states. -/
theorem returned_state_collection_classification
    (ss : List ChildState)
    (htypes : ∀ s ∈ ss,
      s.type = .COMPLETED ∨ s.type = .FAILED ∨ s.type = .CANCELLED) :
    ((∀ s ∈ ss, s.type = .COMPLETED) →
      stateFromStateCollection ss =
        { type := .COMPLETED, name := "Completed",
          message := "All states completed.", data := .states ss })
    ∧ ((∃ s ∈ ss, s.type = .CANCELLED) →
      stateFromStateCollection ss =
        { type := .CANCELLED, name := "Cancelled",
          message := toString (countType .CANCELLED ss) ++ "/"
            ++ toString ss.length ++ " states cancelled.",
          data := .states ss })
    ∧ ((∀ s ∈ ss, s.type ≠ .CANCELLED) → (∃ s ∈ ss, s.type ≠ .COMPLETED) →
      stateFromStateCollection ss =
        { type := .FAILED, name := "Failed",
          message :=
            toString ((ss.filter (fun s => !(s.type == .COMPLETED))).length)
            ++ "/" ++ toString ss.length ++ " states failed.",
          data := .states ss }) := by
  refine ⟨?_, ?_, ?_⟩
  · intro hall
    have hc : countType .COMPLETED ss = ss.length :=
      (countType_eq_length_iff .COMPLETED ss).mpr hall
    unfold stateFromStateCollection
    rw [if_pos hc]
  · rintro ⟨s, hs, hcanc⟩
    have hnotall : ¬ countType .COMPLETED ss = ss.length := by
      intro h
      have := (countType_eq_length_iff .COMPLETED ss).mp h s hs
      rw [hcanc] at this
      exact absurd this (by decide)
    have hpos : 0 < countType .CANCELLED ss :=
      (countType_pos_iff .CANCELLED ss).mpr ⟨s, hs, hcanc⟩
    unfold stateFromStateCollection
    rw [if_neg hnotall, if_pos hpos]
  · rintro hnoc ⟨s, hs, hncomp⟩
    have hnotall : ¬ countType .COMPLETED ss = ss.length := by
      intro h
      exact hncomp ((countType_eq_length_iff .COMPLETED ss).mp h s hs)
    have hnopos : ¬ 0 < countType .CANCELLED ss := by
      intro h
      obtain ⟨u, hu, hut⟩ := (countType_pos_iff .CANCELLED ss).mp h
      exact hnoc u hu hut
    have htwo : ∀ u ∈ ss, u.type = .COMPLETED ∨ u.type = .FAILED := by
      intro u hu
      rcases htypes u hu with h1 | h2 | h3
      · exact Or.inl h1
      · exact Or.inr h2
      · exact absurd h3 (hnoc u hu)
    have hcount := failed_count_eq_noncompleted ss htwo
    unfold stateFromStateCollection
    rw [if_neg hnotall, if_neg hnopos, hcount]

/-- C1 witness: the two concrete scenarios of the tests — a tuple with
one Cancelled, one Completed, one Failed state classifies as Cancelled
with message "1/3 states cancelled."; a tuple with two Failed and one
Completed state classifies as Failed with message "2/3 states failed.";
an all-Completed tuple classifies as Completed with the tuple as data. -/
theorem returned_state_collection_classification_witness :
    (stateFromStateCollection
        [⟨.CANCELLED, "", .value .vNone⟩,
         ⟨.COMPLETED, "", .value (.vBool true)⟩,
         ⟨.FAILED, "", .exc (.ValueError "Fail")⟩]).type = .CANCELLED
    ∧ (stateFromStateCollection
        [⟨.CANCELLED, "", .value .vNone⟩,
         ⟨.COMPLETED, "", .value (.vBool true)⟩,
         ⟨.FAILED, "", .exc (.ValueError "Fail")⟩]).message
        = "1/3 states cancelled."
    ∧ (stateFromStateCollection
        [⟨.FAILED, "", .exc (.ValueError "Test 1")⟩,
         ⟨.FAILED, "", .exc (.ValueError "Test 2")⟩,
         ⟨.COMPLETED, "", .value (.vBool true)⟩]).type = .FAILED
    ∧ (stateFromStateCollection
        [⟨.FAILED, "", .exc (.ValueError "Test 1")⟩,
         ⟨.FAILED, "", .exc (.ValueError "Test 2")⟩,
         ⟨.COMPLETED, "", .value (.vBool true)⟩]).message
        = "2/3 states failed."
    ∧ stateFromStateCollection
        [⟨.COMPLETED, "", .value (.vBool true)⟩,
         ⟨.COMPLETED, "", .value (.vBool true)⟩] =
        { type := .COMPLETED, name := "Completed",
          message := "All states completed.",
          data := .states [⟨.COMPLETED, "", .value (.vBool true)⟩,
                           ⟨.COMPLETED, "", .value (.vBool true)⟩] } := by
  have h1 := (returned_state_collection_classification
    [⟨.CANCELLED, "", .value .vNone⟩,
     ⟨.COMPLETED, "", .value (.vBool true)⟩,
     ⟨.FAILED, "", .exc (.ValueError "Fail")⟩] (by decide)).2.1
    ⟨_, List.mem_cons_self _ _, rfl⟩
  have h2 := (returned_state_collection_classification
    [⟨.FAILED, "", .exc (.ValueError "Test 1")⟩,
     ⟨.FAILED, "", .exc (.ValueError "Test 2")⟩,
     ⟨.COMPLETED, "", .value (.vBool true)⟩] (by decide)).2.2
    (by decide) ⟨_, List.mem_cons_self _ _, by decide⟩
  have h3 := (returned_state_collection_classification
    [⟨.COMPLETED, "", .value (.vBool true)⟩,
     ⟨.COMPLETED, "", .value (.vBool true)⟩] (by decide)).1 (by decide)
  refine ⟨by rw [h1], by rw [h1]; decide, by rw [h2], by rw [h2]; decide, h3⟩

/-- The retry loop, entered at attempt `a` with `r` retries left, runs
the body once per failing attempt and ends Completed on the first
successful attempt, provided the budget suffices. -/
lemma runRetryLoop_succeeds_after_failures
    (body : Nat → Except Exc Value) (v : Value) :
    ∀ (k r a : Nat), k ≤ r →
      (∀ i, i < k → ∃ e, body (a + i) = .error e) →
      body (a + k) = .ok v →
      runRetryLoop body a r = (a + k + 1, completedState v) := by
  intro k
  induction k with
  | zero =>
      intro r a _ _ hok
      rw [Nat.add_zero] at hok
      cases r with
      | zero => simp [runRetryLoop, hok]
      | succ r => simp [runRetryLoop, hok]
  | succ k ih =>
      intro r a hkr hfail hok
      cases r with
      | zero => omega
      | succ r =>
          obtain ⟨e, he⟩ := hfail 0 (Nat.succ_pos k)
          rw [Nat.add_zero] at he
          have hstep : runRetryLoop body a (r + 1) =
              runRetryLoop body (a + 1) r := by
            simp [runRetryLoop, he]
          rw [hstep]
          have h2 := ih r (a + 1) (by omega)
            (fun i hi => by
              obtain ⟨e', he'⟩ := hfail (i + 1) (by omega)
              exact ⟨e', by rw [show a + 1 + i = a + (i + 1) by omega]; exact he'⟩)
            (by rw [show a + 1 + k = a + (k + 1) by omega]; exact hok)
          rw [h2]
          congr 1
          omega

/-- C2: for every retry-enabled flow whose body fails `k` times and then
succeeds, with `k` at most the configured retries, calling the flow
yields the success value with final outcome Completed and the body runs
exactly `k + 1` times. -/
theorem flow_retry_succeeds_within_budget
    (retries k : Nat) (body : Nat → Except Exc Value) (v : Value)
    (hk : k ≤ retries)
    (hfail : ∀ i, i < k → ∃ e, body i = .error e)
    (hok : body k = .ok v) :
    callFlowWithRetries retries body = (k + 1, completedState v) := by
  unfold callFlowWithRetries
  have := runRetryLoop_succeeds_after_failures body v k retries 0 hk
    (fun i hi => by
      obtain ⟨e, he⟩ := hfail i hi
      exact ⟨e, by rw [Nat.zero_add]; exact he⟩)
    (by rw [Nat.zero_add]; exact hok)
  rw [this]
  congr 1
  omega

/-- C2 witness: with `retries = 1` and a body raising on the first call
and returning "hello" on the second, the flow completes with "hello" and
the body runs exactly twice. -/
theorem flow_retry_succeeds_within_budget_witness :
    callFlowWithRetries 1
      (fun i => if i = 0 then .error (.ValueError "first run boom")
                else .ok (.vStr "hello"))
      = (2, completedState (.vStr "hello")) :=
  flow_retry_succeeds_within_budget 1 1 _ (.vStr "hello") (by omega)
    (fun i hi => ⟨.ValueError "first run boom", by
      have h0 : i = 0 := by omega
      rw [h0]
      rfl⟩)
    rfl

/-- C3 counterexample: in the scenario of
`test_flow_retry_with_error_in_flow_and_successful_task` (a flow with
`retries = 1` whose always-succeeding task completes on the failed first
attempt), the retried flow run executes the body twice but the task's
user code runs only once — the completed task run record from the failed
attempt is reused, so it is not the case that every task called in the
flow body gets an entirely new task run record on the retried attempt
(a per-attempt fresh record would make the task's execution count equal
the flow's attempt count). -/
theorem flow_retry_new_task_record_counterexample :
    retryScenarioSuccessfulTask.1 = 2
    ∧ retryScenarioSuccessfulTask.2.1.runCount = 1
    ∧ retryScenarioSuccessfulTask.2.2 = completedState (.vStr "hello")
    ∧ ¬ retryScenarioSuccessfulTask.2.1.runCount
        = retryScenarioSuccessfulTask.1 := by
  refine ⟨rfl, rfl, rfl, ?_⟩
  decide

/-- C3 (amended): on a flow retry, the retried attempt re-executes the
flow body, but nested task runs from the failed attempt are reused when
they completed: a task whose prior task run is Completed is returned
as-is without executing its user code again, while a task whose prior
task run is Failed is reset and its user code executed again; in the
tests' scenarios the always-succeeding task runs once across two flow
attempts, while the first-attempt-failing task runs twice. -/
theorem flow_retry_task_run_reuse
    (taskB : Nat → Except Exc Value) (tr : TaskRun) (attempt : Nat) :
    (tr.state = .COMPLETED → callTask taskB (some tr) attempt = tr)
    ∧ (tr.state = .FAILED →
        callTask taskB (some tr) attempt = execTask taskB attempt tr.runCount
        ∧ (callTask taskB (some tr) attempt).runCount = tr.runCount + 1)
    ∧ retryScenarioSuccessfulTask =
        (2, { state := .COMPLETED, result := some (.vStr "hello"),
              runCount := 1 }, completedState (.vStr "hello"))
    ∧ retryScenarioFailedTask =
        (2, { state := .COMPLETED, result := some (.vStr "hello"),
              runCount := 2 }, completedState (.vStr "hello")) := by
  refine ⟨?_, ?_, rfl, rfl⟩
  · intro h
    simp [callTask, h]
  · intro h
    have hne : tr.state ≠ .COMPLETED := by rw [h]; decide
    constructor
    · simp [callTask, hne]
    · simp only [callTask, hne, if_false, if_neg hne]
      cases htb : taskB attempt with
      | ok v => simp [execTask, htb]
      | error e => simp [execTask, htb]

/-- C3 witness: a Completed task run record is reused unchanged by a
retried attempt, and a Failed task run record is re-executed, bumping its
execution count. -/
theorem flow_retry_task_run_reuse_witness :
    callTask (fun _ => .ok (.vStr "hello"))
        (some { state := .COMPLETED, result := some (.vStr "hello"),
                runCount := 1 }) 1
      = { state := .COMPLETED, result := some (.vStr "hello"), runCount := 1 }
    ∧ (callTask (fun _ => .ok (.vStr "hello"))
        (some { state := .FAILED, result := none, runCount := 1 }) 1).runCount
      = 2 :=
  ⟨(flow_retry_task_run_reuse (fun _ => .ok (.vStr "hello"))
      { state := .COMPLETED, result := some (.vStr "hello"), runCount := 1 }
      1).1 rfl,
   ((flow_retry_task_run_reuse (fun _ => .ok (.vStr "hello"))
      { state := .FAILED, result := none, runCount := 1 } 1).2.1 rfl).2⟩

/-- C4: for every flow with a configured `timeout_seconds`, a body that
needs longer than the timeout yields a Failed terminal state named
"TimedOut" whose message contains the configured timeout value, and a
body that finishes (returning normally) strictly before the deadline
yields a Completed terminal state. -/
theorem flow_timeout_classification
    (timeoutSeconds : Nat) (body : TimedBody) :
    (timeoutSeconds < body.duration →
      (runWithTimeout timeoutSeconds body).type = .FAILED
      ∧ (runWithTimeout timeoutSeconds body).name = "TimedOut"
      ∧ ∃ pre post, (runWithTimeout timeoutSeconds body).message =
          pre ++ toString timeoutSeconds ++ post)
    ∧ (body.duration < timeoutSeconds → ∀ v, body.outcome = .ret v →
        (runWithTimeout timeoutSeconds body).type = .COMPLETED
        ∧ (runWithTimeout timeoutSeconds body).name = "Completed") := by
  constructor
  · intro hlate
    unfold runWithTimeout
    rw [if_pos hlate]
    exact ⟨rfl, rfl, "Flow run exceeded timeout of ", " seconds", rfl⟩
  · intro hearly v hret
    unfold runWithTimeout
    rw [if_neg (by omega), hret]
    exact ⟨rfl, rfl⟩

/-- C4 witness: a body needing 5 seconds under a 1-second timeout is
Failed/"TimedOut" with the configured value in the message, and a body
finishing in 1 second under a 10-second timeout is Completed. -/
theorem flow_timeout_classification_witness :
    (runWithTimeout 1 ⟨5, .ret .vNone⟩).type = .FAILED
    ∧ (runWithTimeout 1 ⟨5, .ret .vNone⟩).name = "TimedOut"
    ∧ (∃ pre post,
        (runWithTimeout 1 ⟨5, .ret .vNone⟩).message =
          pre ++ toString 1 ++ post)
    ∧ (runWithTimeout 10 ⟨1, .ret .vNone⟩).type = .COMPLETED := by
  have h1 := (flow_timeout_classification 1 ⟨5, .ret .vNone⟩).1 (by decide)
  have h2 := (flow_timeout_classification 10 ⟨1, .ret .vNone⟩).2 (by decide)
    .vNone rfl
  exact ⟨h1.1, h1.2.1, h1.2.2, h2.1⟩

/-- C10: a TimeoutError raised by the flow's own body before the
configured deadline elapses is classified as an ordinary failure, not as
an engine timeout: the terminal state is Failed with name "Failed", its
message is the user's own message (so it does not contain the engine's
"exceeded timeout" text whenever the user's message does not), and
resolving the state's data re-raises the user's TimeoutError with its
original message. -/
theorem user_timeout_error_not_hidden
    (timeoutSeconds : Nat) (body : TimedBody) (m : String)
    (hearly : body.duration < timeoutSeconds)
    (hout : body.outcome = .raise (.TimeoutError m)) :
    (runWithTimeout timeoutSeconds body).type = .FAILED
    ∧ (runWithTimeout timeoutSeconds body).name = "Failed"
    ∧ (runWithTimeout timeoutSeconds body).message = m
    ∧ (runWithTimeout timeoutSeconds body).resolve
        = .error (.TimeoutError m)
    ∧ (¬ List.IsInfix "exceeded timeout".toList m.toList →
        ¬ List.IsInfix "exceeded timeout".toList
          (runWithTimeout timeoutSeconds body).message.toList) := by
  have hred : runWithTimeout timeoutSeconds body =
      failedState m (.TimeoutError m) := by
    unfold runWithTimeout
    rw [if_neg (by omega), hout]
    rfl
  rw [hred]
  exact ⟨rfl, rfl, rfl, rfl, fun h => h⟩

/-- C10 witness: a body raising `TimeoutError "Oh no!"` immediately under
a 30-second timeout ends Failed with name "Failed", message "Oh no!"
(which does not contain "exceeded timeout"), and resolving the state's
data re-raises the TimeoutError with its original message. -/
theorem user_timeout_error_not_hidden_witness :
    (runWithTimeout 30 ⟨0, .raise (.TimeoutError "Oh no!")⟩).type = .FAILED
    ∧ (runWithTimeout 30 ⟨0, .raise (.TimeoutError "Oh no!")⟩).name = "Failed"
    ∧ (runWithTimeout 30 ⟨0, .raise (.TimeoutError "Oh no!")⟩).resolve
        = .error (.TimeoutError "Oh no!")
    ∧ ¬ List.IsInfix "exceeded timeout".toList
        (runWithTimeout 30 ⟨0, .raise (.TimeoutError "Oh no!")⟩).message.toList
    := by
  have h := user_timeout_error_not_hidden 30 ⟨0, .raise (.TimeoutError "Oh no!")⟩
    "Oh no!" (by decide) rfl
  exact ⟨h.1, h.2.1, h.2.2.2.1, h.2.2.2.2 (by decide)⟩

/-- C5: for every flow with parameter validation enabled, a call-time
argument value that cannot be coerced to its declared annotation produces
a run in a Failed state carrying a ParameterTypeError (resolving the
state's data raises ParameterTypeError), and the flow's user code is
never executed. -/
theorem invalid_parameters_fail_without_running_user_code
    (params : List ParamBinding)
    (body : List (String × Value) → Except Exc Value)
    (p : ParamBinding) (hp : p ∈ params)
    (hbad : coerce p.ann p.arg = none) :
    (runFlowWithParams true params body).1 = []
    ∧ (runFlowWithParams true params body).2.type = .FAILED
    ∧ ∃ msg, (runFlowWithParams true params body).2.resolve
        = .error (.ParameterTypeError msg) := by
  have hmem : p ∈ params.filter (fun q => (coerce q.ann q.arg).isNone) :=
    List.mem_filter.mpr ⟨hp, by rw [hbad]; rfl⟩
  have hbind : ∃ msg, bindParameters true params
      = .error (.ParameterTypeError msg) := by
    unfold bindParameters
    cases hfil : params.filter (fun q => (coerce q.ann q.arg).isNone) with
    | nil => rw [hfil] at hmem; exact absurd hmem (List.not_mem_nil p)
    | cons b bs => exact ⟨_, by rw [if_pos rfl]⟩
  obtain ⟨msg, hbind⟩ := hbind
  unfold runFlowWithParams
  rw [hbind]
  exact ⟨rfl, rfl, msg, rfl⟩

/-- C5 witness: a flow with one parameter `x : int` called with the
string "foo" (which cannot be coerced to an integer) ends Failed without
its body ever running, and resolving the state's data raises a
ParameterTypeError. -/
theorem invalid_parameters_fail_without_running_user_code_witness :
    (runFlowWithParams true [⟨"x", .AInt, .vStr "foo"⟩]
        (fun _ => .ok .vNone)).1 = []
    ∧ (runFlowWithParams true [⟨"x", .AInt, .vStr "foo"⟩]
        (fun _ => .ok .vNone)).2.type = .FAILED
    ∧ ∃ msg, (runFlowWithParams true [⟨"x", .AInt, .vStr "foo"⟩]
        (fun _ => .ok .vNone)).2.resolve
        = .error (.ParameterTypeError msg) :=
  invalid_parameters_fail_without_running_user_code
    [⟨"x", .AInt, .vStr "foo"⟩] (fun _ => .ok .vNone)
    ⟨"x", .AInt, .vStr "foo"⟩ (List.mem_singleton.mpr rfl) (by decide)

/-- C6: for every parameter set, including non-serializable arbitrary
objects, the Parameter Binder preserves argument identity when validation
is disabled: each object passed at the call site is exactly the object in
the binding the flow's body is invoked on, and a value with no coercing
annotation passes through coercion unchanged. -/
theorem parameters_pass_through_unchanged_without_validation
    (params : List ParamBinding)
    (body : List (String × Value) → Except Exc Value) :
    bindParameters false params = .ok (params.map (fun p => (p.name, p.arg)))
    ∧ (runFlowWithParams false params body).1
        = [params.map (fun p => (p.name, p.arg))]
    ∧ ∀ v, coerce .AAny v = some v := by
  refine ⟨rfl, rfl, fun v => ?_⟩
  cases v <;> rfl

/-- C7: for every flow with N lifecycle hooks registered for the final
state type, all N hooks are invoked in declaration order; a hook that
raises is caught, the remaining hooks still run (the completed effects
are exactly those of the non-raising hooks, in order), and the run's
terminal state is unchanged by the raising hook. -/
theorem lifecycle_hooks_isolated_and_ordered
    (hooks : List Hook) (st : State) :
    (dispatchHooks hooks st).1 = hooks.map Hook.id
    ∧ (dispatchHooks hooks st).2.2 = st
    ∧ (dispatchHooks hooks st).2.1
        = (hooks.filter (fun h => !h.raises)).map Hook.id := by
  induction hooks with
  | nil => exact ⟨rfl, rfl, rfl⟩
  | cons h hs ih =>
      obtain ⟨ih1, ih2, ih3⟩ := ih
      by_cases hr : h.raises
      · have hinv : invokeHook h = .error (.GenericError "hook failed") := by
          simp [invokeHook, hr]
        refine ⟨?_, ?_, ?_⟩ <;>
          simp [dispatchHooks, hinv, List.filter_cons, hr, ih1, ih2, ih3]
      · have hinv : invokeHook h = .ok h.id := by
          simp [invokeHook, hr]
        refine ⟨?_, ?_, ?_⟩ <;>
          simp [dispatchHooks, hinv, List.filter_cons, hr, ih1, ih2, ih3]

/-- C8: hook configuration is validated eagerly at flow definition time:
a non-iterable value for a hook list raises TypeError, an empty list
raises ValueError, a list containing any non-callable element raises
TypeError, and in every such case flow definition construction fails
before a flow object exists (so no run of it can ever occur). -/
theorem hook_configuration_validated_at_definition_time
    (argName nm : String) :
    (∀ typeName, validateHooks argName (.nonIterable typeName) =
        .error (.typeError ("Expected iterable for '" ++ argName ++ "'; got "
          ++ typeName ++ " instead. Please provide a list of hooks to '"
          ++ argName ++ "':\n\n@flow(" ++ argName
          ++ "=[hook1, hook2])\ndef my_flow():\n\tpass")))
    ∧ validateHooks argName (.iterable []) =
        .error (.valueError ("Empty list passed for '" ++ argName ++ "'"))
    ∧ (∀ elems, (∃ e ∈ elems, e.isCallable = false) →
        ∃ msg, validateHooks argName (.iterable elems)
          = .error (.typeError msg))
    ∧ (∀ onC onF e, validateHooks "on_completion" onC = .error e →
        mkFlowDef nm onC onF = .error e) := by
  refine ⟨fun typeName => rfl, rfl, ?_, ?_⟩
  · rintro elems ⟨e, he, hcall⟩
    cases elems with
    | nil => exact absurd he (List.not_mem_nil e)
    | cons x xs =>
        have hsome : (List.find? (fun e => !e.isCallable) (x :: xs)).isSome :=
          List.find?_isSome.mpr ⟨e, he, by rw [hcall]; rfl⟩
        obtain ⟨bad, hfind⟩ := Option.isSome_iff_exists.mp hsome
        refine ⟨"Expected callables in '" ++ argName ++ "'; got "
          ++ bad.typeNameOf ++ " instead. Please provide a list of hooks to '"
          ++ argName ++ "':\n\n@flow(" ++ argName
          ++ "=[hook1, hook2])\ndef my_flow():\n\tpass", ?_⟩
        simp only [validateHooks, hfind]
  · intro onC onF e h
    unfold mkFlowDef
    rw [h]

set_option maxRecDepth 10000 in
/-- C8 witness: for `on_completion`, a bare function is rejected with the
test's TypeError message, an empty list with the test's ValueError
message, a list containing a string with a TypeError, and flow definition
construction fails on a non-iterable hook argument. -/
theorem hook_configuration_validated_at_definition_time_witness :
    (∃ m, validateHooks "on_completion" (.nonIterable "function")
        = .error (.typeError m)
      ∧ m = "Expected iterable for 'on_completion'; got function instead. Please provide a list of hooks to 'on_completion':\n\n@flow(on_completion=[hook1, hook2])\ndef my_flow():\n\tpass")
    ∧ (∃ m, validateHooks "on_completion" (.iterable [])
        = .error (.valueError m)
      ∧ m = "Empty list passed for 'on_completion'")
    ∧ (∃ m, validateHooks "on_completion"
        (.iterable [.callable ⟨0, false⟩, .nonCallable "str"])
        = .error (.typeError m))
    ∧ (∃ e, mkFlowDef "flow1" (.nonIterable "function") .noValue
        = .error e) := by
  obtain ⟨h1, h2, h3, h4⟩ :=
    hook_configuration_validated_at_definition_time "on_completion" "flow1"
  refine ⟨⟨_, h1 "function", by decide⟩, ⟨_, h2, by decide⟩, ?_, ?_⟩
  · exact h3 [.callable ⟨0, false⟩, .nonCallable "str"]
      ⟨.nonCallable "str", by decide, rfl⟩
  · exact ⟨_, h4 (.nonIterable "function") .noValue _ (h1 "function")⟩

/-- C9: calling `with_options()` on a flow definition with no overrides
yields a definition equal to the original in every observable
configuration field (name, description, task runner, timeout, validation
flag, retries, retry delay, result options, hooks) — as a whole, the
resulting configuration record equals the original one. -/
theorem with_options_no_overrides_preserves_all_fields (f : FlowDef) :
    f.with_options FlowOptions.empty = f
    ∧ (f.with_options FlowOptions.empty).name = f.name
    ∧ (f.with_options FlowOptions.empty).description = f.description
    ∧ (f.with_options FlowOptions.empty).task_runner = f.task_runner
    ∧ (f.with_options FlowOptions.empty).timeout_seconds = f.timeout_seconds
    ∧ (f.with_options FlowOptions.empty).should_validate_parameters
        = f.should_validate_parameters
    ∧ (f.with_options FlowOptions.empty).retries = f.retries
    ∧ (f.with_options FlowOptions.empty).retry_delay_seconds
        = f.retry_delay_seconds
    ∧ (f.with_options FlowOptions.empty).persist_result = f.persist_result
    ∧ (f.with_options FlowOptions.empty).result_serializer
        = f.result_serializer
    ∧ (f.with_options FlowOptions.empty).result_storage = f.result_storage
    ∧ (f.with_options FlowOptions.empty).cache_result_in_memory
        = f.cache_result_in_memory
    ∧ (f.with_options FlowOptions.empty).log_prints = f.log_prints
    ∧ (f.with_options FlowOptions.empty).on_completion = f.on_completion
    ∧ (f.with_options FlowOptions.empty).on_failure = f.on_failure :=
  ⟨rfl, rfl, rfl, rfl, rfl, rfl, rfl, rfl, rfl, rfl, rfl, rfl, rfl, rfl, rfl⟩

end Prefect
